import Mathlib

/-!
Verification of the per-instance system-template override loader
(`sweagent/agent/hooks/system_template_hook.py`).

The Python module defines a single class `SystemTemplateHook` with
a constructor, `on_init`, `_extract_system_template` and `on_model_query`.
We give a shallow embedding: YAML documents become the inductive `Yaml`,
Python's `current[key]` subscripting with the `(KeyError, TypeError)`
handler becomes the total function `Yaml.index` returning `Option`,
`str.strip()` becomes `pyStrip`, the filesystem interaction of one
`on_init` call becomes the `FileState` argument, and the duck-typed agent
(`hasattr(agent, 'templates')`, `hasattr(agent.templates,
'system_template')`) becomes `Agent` with `Option` fields.  `on_init`
additionally returns the number of times the assignment
`agent.templates.system_template = ...` was executed, so that
"override application" counts can be stated.  `on_model_query` returns
the list of log events it emits.
-/

/-- Parsed YAML values as produced by `yaml.safe_load`: `None`, booleans,
numeric scalars, strings, sequences and mappings.  Mapping keys are the
strings the extractor can look up; entries with other key types can never
match a string lookup and are omitted. -/
inductive Yaml where
  | null : Yaml
  | bool (b : Bool) : Yaml
  | int (n : Int) : Yaml
  | str (s : String) : Yaml
  | seq (items : List Yaml) : Yaml
  | map (entries : List (String × Yaml)) : Yaml

/-- Python `current[key]` for a string `key`, under the
`except (KeyError, TypeError)` handler of `_extract_system_template`:
a mapping yields its entry for `key` (`KeyError` -> `none` when absent);
subscripting `None`, a bool, a number, a string or a list with a string
key raises `TypeError`, hence `none`. -/
def Yaml.index : Yaml → String → Option Yaml
  | .map entries, key => entries.lookup key
  | _, _ => none

/-- Python `s.strip()` on a list of characters: drop leading and trailing
whitespace. -/
def listStrip (l : List Char) : List Char :=
  ((l.dropWhile Char.isWhitespace).reverse.dropWhile Char.isWhitespace).reverse

/-- Python `s.strip()`: the string with surrounding whitespace removed. -/
def pyStrip (s : String) : String :=
  ⟨listStrip s.data⟩

/-- The inner loop of `_extract_system_template`:
`for key in path: current = current[key]`, abandoning the path on the
first failing subscript. -/
def descend : Yaml → List String → Option Yaml
  | v, [] => some v
  | v, k :: ks =>
    match v.index k with
    | some v' => descend v' ks
    | none => none

/-- One iteration of the path loop of `_extract_system_template`: descend
along `path`; if the reached value is a string with non-whitespace
content, the stripped string is the result, otherwise the path is a miss. -/
def tryPath (config : Yaml) (path : List String) : Option String :=
  match descend config path with
  | some (.str s) => if pyStrip s ≠ "" then some (pyStrip s) else none
  | _ => none

/-- The fixed, ordered `paths_to_try` list of `_extract_system_template`. -/
def paths_to_try : List (List String) :=
  [["agent", "templates", "system_template"],
   ["templates", "system_template"],
   ["system_template"],
   ["agent", "system_template"]]

/-- The `for path in paths_to_try` loop: first path that yields a usable
string wins; if all paths miss the result is `""`. -/
def extractLoop (config : Yaml) : List (List String) → String
  | [] => ""
  | p :: ps =>
    match tryPath config p with
    | some s => s
    | none => extractLoop config ps

/-- `SystemTemplateHook._extract_system_template`: try the four
candidate key paths in order and return the first stripped, non-empty
string found, or `""` if none is found. -/
def _extract_system_template (config : Yaml) : String :=
  extractLoop config paths_to_try

/-- The attribute `templates` of the host agent, when present.  Its
`system_template` field is `none` when the attribute is absent
(`hasattr(agent.templates, 'system_template')` false). -/
structure Templates where
  system_template : Option String
deriving DecidableEq, Repr

/-- The duck-typed host agent as seen by the hook: `templates = none`
models `hasattr(agent, 'templates')` being false. -/
structure Agent where
  templates : Option Templates
deriving DecidableEq, Repr

/-- The loader's own state: the fields set by `__init__`. -/
structure SystemTemplateHook where
  instance_id : String
  instance_templates_dir : String
  template_loaded : Bool
deriving DecidableEq, Repr

/-- The constructor `SystemTemplateHook.__init__`: stores the instance id
and directory and starts with `template_loaded = False`. -/
def SystemTemplateHook.new (instance_id : String)
    (instance_templates_dir : String) : SystemTemplateHook :=
  { instance_id := instance_id
    instance_templates_dir := instance_templates_dir
    template_loaded := false }

/-- What one `on_init` call finds at `<dir>/<instance_id>.yaml`:
the file is absent, or opening/parsing it raises (the exception is caught
by the `try`/`except` of `on_init`), or it parses to a document. -/
inductive FileState where
  | absent : FileState
  | unparsable : FileState
  | parsed (doc : Yaml) : FileState

/-- `SystemTemplateHook.on_init`: returns the hook state after the call,
the agent after the call, and the number of times the assignment
`agent.templates.system_template = system_template` was executed during
the call.  Mirrors the source: early return when the file is absent; the
`try` block swallowing load/parse exceptions; the truthiness test
`if system_template:`; the two `hasattr` guards; the single assignment
plus `self.template_loaded = True` in the success branch. -/
def on_init (h : SystemTemplateHook) (fs : FileState) (agent : Agent) :
    SystemTemplateHook × Agent × Nat :=
  match fs with
  | .absent => (h, agent, 0)
  | .unparsable => (h, agent, 0)
  | .parsed doc =>
    let system_template := _extract_system_template doc
    if system_template ≠ "" then
      match agent.templates with
      | some t =>
        match t.system_template with
        | some _ =>
          ({ h with template_loaded := true },
           { agent with templates := some { t with system_template := some system_template } },
           1)
        | none => (h, agent, 0)
      | none => (h, agent, 0)
    else (h, agent, 0)

/-- The one log event `on_model_query` can emit: the informational line
noting that a custom system template is in use. -/
inductive LogEvent where
  | infoUsingCustomTemplate (instance_id : String) : LogEvent
deriving DecidableEq, Repr

/-- `SystemTemplateHook.on_model_query`: emits the informational log line
exactly when `self.template_loaded and len(messages) == 1`; touches
neither the hook state nor the agent (which it is not even passed). -/
def on_model_query {α : Type} (h : SystemTemplateHook) (messages : List α) :
    SystemTemplateHook × List LogEvent :=
  if h.template_loaded && messages.length == 1 then
    (h, [.infoUsingCustomTemplate h.instance_id])
  else
    (h, [])

/-- One callback invocation by the host runtime: an `on_init` call
(together with what the filesystem holds at that moment) or an
`on_model_query` call with `n` messages. -/
inductive HookEvent where
  | init (fs : FileState) : HookEvent
  | modelQuery (n : Nat) : HookEvent

/-- Whether an event is an `on_init` invocation. -/
def isInitEvent : HookEvent → Bool
  | .init _ => true
  | .modelQuery _ => false

/-- Run a sequence of callback invocations against one loader instance,
threading hook and agent state and summing the number of override
applications (mutations of `agent.templates.system_template`). -/
def runEvents : SystemTemplateHook → Agent → List HookEvent →
    SystemTemplateHook × Agent × Nat
  | h, agent, [] => (h, agent, 0)
  | h, agent, .init fs :: es =>
    let r := on_init h fs agent
    let rest := runEvents r.1 r.2.1 es
    (rest.1, rest.2.1, r.2.2 + rest.2.2)
  | h, agent, .modelQuery n :: es =>
    let r := on_model_query h (List.replicate n ())
    let rest := runEvents r.1 agent es
    (rest.1, rest.2.1, rest.2.2)

theorem dropWhile_head_not (p : Char → Bool) :
    ∀ (l : List Char) (a : Char) (as : List Char),
      List.dropWhile p l = a :: as → p a = false
  | [], a, as => by simp
  | x :: xs, a, as => by
    rw [List.dropWhile_cons]
    by_cases h : p x
    · simp only [h, if_true]
      exact dropWhile_head_not p xs a as
    · simp only [h]
      intro he
      rw [Bool.not_eq_true] at h
      rw [if_neg (by simp [h])] at he
      cases he
      exact h

theorem dropWhile_of_head_not (p : Char → Bool) (l : List Char) (a : Char)
    (hh : l.head? = some a) (ha : p a = false) : List.dropWhile p l = l := by
  cases l with
  | nil => rfl
  | cons x xs =>
    simp only [List.head?_cons, Option.some.injEq] at hh
    subst hh
    rw [List.dropWhile_cons, if_neg (by simp [ha])]

theorem dropWhile_idem (p : Char → Bool) :
    ∀ l : List Char, List.dropWhile p (List.dropWhile p l) = List.dropWhile p l
  | [] => rfl
  | x :: xs => by
    rw [List.dropWhile_cons]
    by_cases h : p x
    · simp only [h, if_true]
      exact dropWhile_idem p xs
    · simp only [h, if_false, Bool.false_eq_true]
      rw [List.dropWhile_cons, if_neg (by simp [h])]

theorem getLast?_dropWhile (p : Char → Bool) :
    ∀ (l : List Char) (b : Char) (bs : List Char),
      List.dropWhile p l = b :: bs → l.getLast? = (b :: bs).getLast?
  | [], b, bs => by simp
  | x :: xs, b, bs => by
    rw [List.dropWhile_cons]
    by_cases h : p x
    · simp only [h, if_true]
      intro he
      have hxs : xs ≠ [] := by
        intro hn; subst hn; simp at he
      obtain ⟨y, ys, rfl⟩ := List.exists_cons_of_ne_nil hxs
      rw [List.getLast?_cons_cons]
      exact getLast?_dropWhile p (y :: ys) b bs he
    · simp only [h]
      intro he
      rw [if_neg (by simp [Bool.not_eq_true] at h; simp [h])] at he
      rw [he]

theorem listStrip_idem (l : List Char) : listStrip (listStrip l) = listStrip l := by
  unfold listStrip
  cases hB : List.dropWhile Char.isWhitespace (List.dropWhile Char.isWhitespace l).reverse with
  | nil => simp
  | cons b bs =>
    have hA : (List.dropWhile Char.isWhitespace l) ≠ [] := by
      intro hn
      rw [hn] at hB
      simp at hB
    obtain ⟨a, has⟩ : ∃ a, (List.dropWhile Char.isWhitespace l).head? = some a := by
      cases hc : List.dropWhile Char.isWhitespace l with
      | nil => exact absurd hc hA
      | cons y ys => exact ⟨y, rfl⟩
    have hpa : Char.isWhitespace a = false := by
      cases hc : List.dropWhile Char.isWhitespace l with
      | nil => exact absurd hc hA
      | cons y ys =>
        rw [hc] at has
        simp only [List.head?_cons, Option.some.injEq] at has
        rw [has] at hc
        exact dropWhile_head_not _ l a _ hc
    -- head of (b :: bs).reverse is a
    have hlast : (b :: bs).getLast? = some a := by
      rw [← getLast?_dropWhile _ _ _ _ hB, List.getLast?_reverse, has]
    have hhead : ((b :: bs).reverse).head? = some a := by
      rw [List.head?_reverse]; exact hlast
    have h1 : List.dropWhile Char.isWhitespace (b :: bs).reverse = (b :: bs).reverse :=
      dropWhile_of_head_not _ _ a hhead hpa
    rw [h1, List.reverse_reverse, ← hB, dropWhile_idem, hB]

theorem pyStrip_idem (s : String) : pyStrip (pyStrip s) = pyStrip s := by
  unfold pyStrip
  exact congrArg String.mk (listStrip_idem s.data)

theorem tryPath_of_descend (doc : Yaml) (p : List String) (s : String)
    (hd : descend doc p = some (.str s)) (hs : pyStrip s ≠ "") :
    tryPath doc p = some (pyStrip s) := by
  unfold tryPath
  rw [hd]
  simp [hs]

theorem tryPath_some (doc : Yaml) (p : List String) (s : String)
    (h : tryPath doc p = some s) : s ≠ "" ∧ pyStrip s = s := by
  unfold tryPath at h
  cases hd : descend doc p with
  | none => rw [hd] at h; exact absurd h (by simp)
  | some v =>
    rw [hd] at h
    cases v with
    | str s0 =>
      by_cases hne : pyStrip s0 = ""
      · simp [hne] at h
      · simp only [ne_eq, hne, not_false_iff, if_true, Option.some.injEq] at h
        subst h
        exact ⟨hne, pyStrip_idem s0⟩
    | null => exact absurd h (by simp)
    | bool b => exact absurd h (by simp)
    | int n => exact absurd h (by simp)
    | seq items => exact absurd h (by simp)
    | map entries => exact absurd h (by simp)

theorem extractLoop_cons (doc : Yaml) (p : List String) (ps : List (List String)) :
    extractLoop doc (p :: ps) =
      match tryPath doc p with
      | some s => s
      | none => extractLoop doc ps := rfl

theorem extractLoop_append_of_miss (doc : Yaml) (before rest : List (List String))
    (hb : ∀ p ∈ before, tryPath doc p = none) :
    extractLoop doc (before ++ rest) = extractLoop doc rest := by
  induction before with
  | nil => rfl
  | cons p ps ih =>
    have hp : tryPath doc p = none := hb p (by simp)
    rw [List.cons_append, extractLoop_cons, hp]
    exact ih (fun q hq => hb q (by simp [hq]))

theorem extractLoop_inv (doc : Yaml) :
    ∀ ps : List (List String),
      extractLoop doc ps = "" ∨
        (extractLoop doc ps ≠ "" ∧ pyStrip (extractLoop doc ps) = extractLoop doc ps)
  | [] => Or.inl rfl
  | p :: ps => by
    unfold extractLoop
    cases h : tryPath doc p with
    | none => exact extractLoop_inv doc ps
    | some s => exact Or.inr (tryPath_some doc p s h)

theorem on_init_no_value (h : SystemTemplateHook) (a : Agent) (doc : Yaml)
    (he : _extract_system_template doc = "") :
    on_init h (.parsed doc) a = (h, a, 0) := by
  simp [on_init, he]

theorem on_init_applied (h : SystemTemplateHook) (doc : Yaml) (t : Templates) (orig : String)
    (he : _extract_system_template doc ≠ "") (ht : t.system_template = some orig) :
    on_init h (.parsed doc) ⟨some t⟩ =
      ({ h with template_loaded := true },
       ⟨some { t with system_template := some (_extract_system_template doc) }⟩, 1) := by
  simp [on_init, he, ht]

theorem on_init_count_le_one (h : SystemTemplateHook) (fs : FileState) (a : Agent) :
    (on_init h fs a).2.2 ≤ 1 := by
  cases fs with
  | absent => exact Nat.zero_le 1
  | unparsable => exact Nat.zero_le 1
  | parsed doc =>
    by_cases he : _extract_system_template doc = ""
    · rw [on_init_no_value h a doc he]
      exact Nat.zero_le 1
    · rcases a with ⟨ts⟩
      cases ts with
      | none => simp [on_init, he]
      | some t =>
        cases ht : t.system_template with
        | none => simp [on_init, he, ht]
        | some orig =>
          rw [on_init_applied h doc t orig he ht]

theorem runEvents_count_zero (es : List HookEvent)
    (hz : es.countP isInitEvent = 0) :
    ∀ (h : SystemTemplateHook) (a : Agent), (runEvents h a es).2.2 = 0 := by
  induction es with
  | nil => intro h a; rfl
  | cons e es ih =>
    intro h a
    cases e with
    | init fs =>
      rw [List.countP_cons] at hz
      simp [isInitEvent] at hz
    | modelQuery n =>
      rw [List.countP_cons] at hz
      simp only [isInitEvent, ite_false, Nat.add_zero, cond_false] at hz
      simp only [runEvents]
      exact ih hz _ _

/-- C1: for a parsed document whose earliest matching candidate key path
reaches a string with non-whitespace content, and an agent exposing
`templates.system_template`, `on_init` overwrites the agent's
`system_template` with the stripped string and sets `template_loaded`;
the paths listed before the winning one all missed, so the earlier path
in the fixed `paths_to_try` order wins and later paths are not consulted. -/
theorem C1_on_init_first_match_wins
    (h : SystemTemplateHook) (doc : Yaml) (t : Templates) (orig s : String)
    (before after : List (List String)) (path : List String)
    (hsplit : paths_to_try = before ++ path :: after)
    (hbefore : ∀ p ∈ before, tryPath doc p = none)
    (hdesc : descend doc path = some (.str s))
    (hs : pyStrip s ≠ "")
    (ht : t.system_template = some orig) :
    on_init h (.parsed doc) ⟨some t⟩ =
      ({ h with template_loaded := true },
       ⟨some { t with system_template := some (pyStrip s) }⟩, 1) := by
  have hex : _extract_system_template doc = pyStrip s := by
    unfold _extract_system_template
    rw [hsplit, extractLoop_append_of_miss doc before _ hbefore, extractLoop_cons,
      tryPath_of_descend doc path s hdesc hs]
  rw [on_init_applied h doc t orig (by rw [hex]; exact hs) ht, hex]

/-- Witness for C1: the document `{system_template: "  hi "}` misses the
first two paths, matches the third, and `on_init` applies `"hi"`. -/
theorem C1_witness :
    on_init (SystemTemplateHook.new "task-1" "dir")
        (.parsed (.map [("system_template", .str "  hi ")]))
        ⟨some ⟨some "orig"⟩⟩ =
      ({ SystemTemplateHook.new "task-1" "dir" with template_loaded := true },
       ⟨some ⟨some (pyStrip "  hi ")⟩⟩, 1) :=
  C1_on_init_first_match_wins (SystemTemplateHook.new "task-1" "dir")
    (.map [("system_template", .str "  hi ")]) ⟨some "orig"⟩ "orig" "  hi "
    [["agent", "templates", "system_template"], ["templates", "system_template"]]
    [["agent", "system_template"]] ["system_template"]
    rfl (by decide) rfl (by decide) rfl

/-- C2: every failure mode of `on_init` — file absent, load/parse
exception, no usable value at any path, or agent lacking the
`templates.system_template` attribute path — terminates without error
(the embedding is a total function), leaves the agent unchanged, and
keeps `template_loaded` false when it was false. -/
theorem C2_failure_modes_leave_state_unchanged
    (h : SystemTemplateHook) (fs : FileState) (a : Agent)
    (hfail : fs = .absent ∨ fs = .unparsable ∨
      (∃ doc, fs = .parsed doc ∧ _extract_system_template doc = "") ∨
      a.templates = none ∨
      (∃ t, a.templates = some t ∧ t.system_template = none))
    (hflag : h.template_loaded = false) :
    on_init h fs a = (h, a, 0) ∧ (on_init h fs a).1.template_loaded = false := by
  have key : on_init h fs a = (h, a, 0) := by
    rcases hfail with rfl | rfl | ⟨doc, rfl, hdoc⟩ | hnone | ⟨t, ht, hst⟩
    · rfl
    · rfl
    · exact on_init_no_value h a doc hdoc
    · cases fs with
      | absent => rfl
      | unparsable => rfl
      | parsed doc =>
        rcases a with ⟨ts⟩
        cases ts with
        | none =>
          by_cases he : _extract_system_template doc = "" <;> simp [on_init, he]
        | some t => simp at hnone
    · cases fs with
      | absent => rfl
      | unparsable => rfl
      | parsed doc =>
        rcases a with ⟨ts⟩
        simp only [] at ht
        subst ht
        by_cases he : _extract_system_template doc = "" <;> simp [on_init, he, hst]
  exact ⟨key, by rw [key]; exact hflag⟩

/-- Witness for C2: an absent file leaves a freshly constructed hook and
a fully equipped agent untouched, with the flag still false. -/
theorem C2_witness :
    on_init (SystemTemplateHook.new "task-9" "dir") .absent ⟨some ⟨some "default"⟩⟩ =
        (SystemTemplateHook.new "task-9" "dir", ⟨some ⟨some "default"⟩⟩, 0) ∧
      (on_init (SystemTemplateHook.new "task-9" "dir") .absent
        ⟨some ⟨some "default"⟩⟩).1.template_loaded = false :=
  C2_failure_modes_leave_state_unchanged (SystemTemplateHook.new "task-9" "dir")
    .absent ⟨some ⟨some "default"⟩⟩ (Or.inl rfl) rfl

/-- C3: when the file for the instance id is absent, or its content is
unparsable (the parse raises and the exception is swallowed), `on_init`
raises nothing and leaves hook flag and agent exactly as they were. -/
theorem C3_absent_or_unparsable_noop
    (h : SystemTemplateHook) (fs : FileState) (a : Agent)
    (hfs : fs = .absent ∨ fs = .unparsable) :
    on_init h fs a = (h, a, 0) := by
  rcases hfs with rfl | rfl <;> rfl

/-- Witness for C3: an unparsable file is a no-op. -/
theorem C3_witness :
    on_init (SystemTemplateHook.new "task-7" "dir") .unparsable ⟨some ⟨some "default"⟩⟩ =
      (SystemTemplateHook.new "task-7" "dir", ⟨some ⟨some "default"⟩⟩, 0) :=
  C3_absent_or_unparsable_noop (SystemTemplateHook.new "task-7" "dir") .unparsable
    ⟨some ⟨some "default"⟩⟩ (Or.inr rfl)

/-- C4: a candidate path whose descent reaches an empty string, a
whitespace-only string, or a non-string value is a miss, and the
extraction loop proceeds to the next path; and when all four paths miss
(extraction returns `""`), `on_init` leaves hook and agent unchanged. -/
theorem C4_miss_tries_next_path :
    (∀ (doc : Yaml) (p : List String) (ps : List (List String)) (v : Yaml),
        descend doc p = some v →
        (∀ s : String, v = .str s → pyStrip s = "") →
        extractLoop doc (p :: ps) = extractLoop doc ps) ∧
    (∀ (h : SystemTemplateHook) (doc : Yaml) (a : Agent),
        _extract_system_template doc = "" →
        on_init h (.parsed doc) a = (h, a, 0)) := by
  constructor
  · intro doc p ps v hd hmiss
    have hnone : tryPath doc p = none := by
      unfold tryPath
      rw [hd]
      cases v with
      | str s =>
        have hs : pyStrip s = "" := hmiss s rfl
        simp [hs]
      | null => rfl
      | bool b => rfl
      | int n => rfl
      | seq items => rfl
      | map entries => rfl
    rw [extractLoop_cons, hnone]
  · intro h doc a he
    exact on_init_no_value h a doc he

/-- Witness for C4: the document `{system_template: "   "}` reaches a
whitespace-only string at the third path, which is a miss, and since all
paths miss, `on_init` changes nothing. -/
theorem C4_witness :
    extractLoop (.map [("system_template", .str "   ")]) [["system_template"]] =
        extractLoop (.map [("system_template", .str "   ")]) [] ∧
    on_init (SystemTemplateHook.new "task-4" "dir")
        (.parsed (.map [("system_template", .str "   ")])) ⟨some ⟨some "keep"⟩⟩ =
      (SystemTemplateHook.new "task-4" "dir", ⟨some ⟨some "keep"⟩⟩, 0) :=
  ⟨C4_miss_tries_next_path.1 (.map [("system_template", .str "   ")])
      ["system_template"] [] (.str "   ") rfl
      (fun s hs => by injection hs with h; rw [← h]; decide),
   C4_miss_tries_next_path.2 (SystemTemplateHook.new "task-4" "dir")
      (.map [("system_template", .str "   ")]) ⟨some ⟨some "keep"⟩⟩ (by decide)⟩

/-- C5: `on_model_query` emits its informational log line exactly when
`template_loaded` is true and the message list has length one; in every
other case it emits nothing, and it never changes the hook state (and
never touches the agent, which it is not passed at all). -/
theorem C5_on_model_query_signal {α : Type} (h : SystemTemplateHook) (messages : List α) :
    (on_model_query h messages).1 = h ∧
    ((on_model_query h messages).2 ≠ [] ↔
      (h.template_loaded = true ∧ messages.length = 1)) ∧
    ((h.template_loaded = true ∧ messages.length = 1) ∨
      (on_model_query h messages).2 = []) := by
  unfold on_model_query
  by_cases h1 : h.template_loaded = true
  · by_cases h2 : messages.length = 1
    · simp [h1, h2]
    · simp [h1, h2]
  · simp [h1]

/-- C6: running `on_init` a second time with the same loader instance and
the same file state, on the agent produced by the first run, leaves the
agent exactly as after the first run: repeated application is
observationally idempotent on the agent. -/
theorem C6_on_init_idempotent_on_agent
    (h : SystemTemplateHook) (fs : FileState) (a : Agent) :
    (on_init (on_init h fs a).1 fs (on_init h fs a).2.1).2.1 = (on_init h fs a).2.1 := by
  cases fs with
  | absent => rfl
  | unparsable => rfl
  | parsed doc =>
    by_cases he : _extract_system_template doc = ""
    · rw [on_init_no_value h a doc he]
      rw [on_init_no_value _ _ _ he]
    · rcases a with ⟨ts⟩
      cases ts with
      | none => simp [on_init, he]
      | some t =>
        cases ht : t.system_template with
        | none =>
          have h1 : on_init h (.parsed doc) ⟨some t⟩ = (h, ⟨some t⟩, 0) := by
            simp [on_init, he, ht]
          rw [h1]
          simp only []
          rw [h1]
        | some orig =>
          rw [on_init_applied h doc t orig he ht]
          simp only []
          rw [on_init_applied _ doc _ (_extract_system_template doc) he rfl]

/-- Counterexample to C7: `on_init` has no guard on `template_loaded`, so
a sequence of two `on_init` invocations against the same loader instance,
each finding the same valid override file, executes the assignment to
`agent.templates.system_template` twice — more than one override
application for this loader instance. -/
theorem C7_counterexample :
    ¬ ((runEvents (SystemTemplateHook.new "task-1" "dir") ⟨some ⟨some "default"⟩⟩
        [.init (.parsed (.map [("system_template", .str "custom")])),
         .init (.parsed (.map [("system_template", .str "custom")]))]).2.2 ≤ 1) := by
  decide

/-- C7 (amended): within a single `on_init` call at most one override
application occurs, and across any callback sequence in which `on_init`
is invoked at most once, at most one override application occurs per
loader instance. -/
theorem C7_amended_at_most_one_application :
    (∀ (h : SystemTemplateHook) (fs : FileState) (a : Agent),
        (on_init h fs a).2.2 ≤ 1) ∧
    (∀ (h : SystemTemplateHook) (a : Agent) (es : List HookEvent),
        es.countP isInitEvent ≤ 1 → (runEvents h a es).2.2 ≤ 1) := by
  refine ⟨on_init_count_le_one, ?_⟩
  intro h a es hc
  induction es generalizing h a with
  | nil => exact Nat.zero_le 1
  | cons e es ih =>
    cases e with
    | init fs =>
      have hz : es.countP isInitEvent = 0 := by
        rw [List.countP_cons] at hc
        simp only [isInitEvent, if_true] at hc
        omega
      simp only [runEvents]
      have h1 := on_init_count_le_one h fs a
      have h2 := runEvents_count_zero es hz (on_init h fs a).1 (on_init h fs a).2.1
      omega
    | modelQuery n =>
      have hc' : es.countP isInitEvent ≤ 1 := by
        rw [List.countP_cons] at hc
        omega
      simp only [runEvents]
      exact ih _ _ hc'

/-- Witness for C7 (amended): a single `on_init` call applies at most
once, and a sequence with at most one `on_init` invocation applies at
most once. -/
theorem C7_amended_witness :
    (on_init (SystemTemplateHook.new "task-1" "dir") .absent ⟨none⟩).2.2 ≤ 1 ∧
    (runEvents (SystemTemplateHook.new "task-1" "dir") ⟨none⟩
        [.modelQuery 1, .init .absent]).2.2 ≤ 1 :=
  ⟨C7_amended_at_most_one_application.1 (SystemTemplateHook.new "task-1" "dir")
      .absent ⟨none⟩,
   C7_amended_at_most_one_application.2 (SystemTemplateHook.new "task-1" "dir")
      ⟨none⟩ [.modelQuery 1, .init .absent] (by decide)⟩

/-- C8: the `template_loaded` flag is monotone: the constructor starts it
at false, `on_init` can only raise it (once true it stays true), and
`on_model_query` returns the hook state entirely unchanged. -/
theorem C8_template_loaded_monotone :
    (∀ iid dir, (SystemTemplateHook.new iid dir).template_loaded = false) ∧
    (∀ (h : SystemTemplateHook) (fs : FileState) (a : Agent),
        h.template_loaded = true → (on_init h fs a).1.template_loaded = true) ∧
    (∀ (h : SystemTemplateHook) (ms : List Unit), (on_model_query h ms).1 = h) := by
  refine ⟨fun iid dir => rfl, ?_, ?_⟩
  · intro h fs a hl
    cases fs with
    | absent => exact hl
    | unparsable => exact hl
    | parsed doc =>
      by_cases he : _extract_system_template doc = ""
      · rw [on_init_no_value h a doc he]
        exact hl
      · rcases a with ⟨ts⟩
        cases ts with
        | none => simp [on_init, he, hl]
        | some t =>
          cases ht : t.system_template with
          | none => simp [on_init, he, ht, hl]
          | some orig => rw [on_init_applied h doc t orig he ht]
  · intro h ms
    unfold on_model_query
    split <;> rfl

/-- Witness for C8: a hook whose flag is already true keeps it true
across `on_init`, a fresh hook starts false, and `on_model_query` does
not change the hook. -/
theorem C8_witness :
    (SystemTemplateHook.new "task-8" "dir").template_loaded = false ∧
    (on_init (SystemTemplateHook.mk "task-8" "dir" true)
        .absent ⟨none⟩).1.template_loaded = true ∧
    (on_model_query (SystemTemplateHook.mk "task-8" "dir" true)
        ([(), ()] : List Unit)).1 = SystemTemplateHook.mk "task-8" "dir" true :=
  ⟨C8_template_loaded_monotone.1 "task-8" "dir",
   C8_template_loaded_monotone.2.1 (SystemTemplateHook.mk "task-8" "dir" true)
      .absent ⟨none⟩ rfl,
   C8_template_loaded_monotone.2.2 (SystemTemplateHook.mk "task-8" "dir" true) [(), ()]⟩

/-- C9: `_extract_system_template` is a total function on every parsed
document (the embedding covers a `None` root, non-mapping roots and
arbitrarily typed intermediate values, and is defined everywhere without
raising), and its result is either `""` or a non-empty string that is
fixed by stripping. -/
theorem C9_extract_total_and_stripped (doc : Yaml) :
    _extract_system_template doc = "" ∨
      (_extract_system_template doc ≠ "" ∧
        pyStrip (_extract_system_template doc) = _extract_system_template doc) :=
  extractLoop_inv doc paths_to_try

/-- C10: whenever `on_init` actually executes the assignment to
`agent.templates.system_template` (the application count is 1), the value
written is a non-empty string with no surrounding whitespace. -/
theorem C10_applied_value_nonempty_stripped
    (h : SystemTemplateHook) (fs : FileState) (a : Agent)
    (happ : (on_init h fs a).2.2 = 1) :
    ∃ t : Templates, (on_init h fs a).2.1.templates = some t ∧
      ∃ v : String, t.system_template = some v ∧ v ≠ "" ∧ pyStrip v = v := by
  cases fs with
  | absent => exact absurd happ (by simp [on_init])
  | unparsable => exact absurd happ (by simp [on_init])
  | parsed doc =>
    by_cases he : _extract_system_template doc = ""
    · rw [on_init_no_value h a doc he] at happ
      exact absurd happ (by simp)
    · rcases a with ⟨ts⟩
      cases ts with
      | none =>
        rw [show on_init h (.parsed doc) ⟨none⟩ = (h, ⟨none⟩, 0) from by
          simp [on_init, he]] at happ
        exact absurd happ (by simp)
      | some t =>
        cases ht : t.system_template with
        | none =>
          rw [show on_init h (.parsed doc) ⟨some t⟩ = (h, ⟨some t⟩, 0) from by
            simp [on_init, he, ht]] at happ
          exact absurd happ (by simp)
        | some orig =>
          rw [on_init_applied h doc t orig he ht]
          refine ⟨{ t with system_template := some (_extract_system_template doc) },
            rfl, _extract_system_template doc, rfl, he, ?_⟩
          rcases extractLoop_inv doc paths_to_try with h0 | ⟨_, hp⟩
          · exact absurd h0 he
          · exact hp

/-- Witness for C10: applying the override from
`{templates: {system_template: " x "}}` writes the stripped, non-empty
string. -/
theorem C10_witness :
    ∃ t : Templates,
      (on_init (SystemTemplateHook.new "task-10" "dir")
        (.parsed (.map [("templates", .map [("system_template", .str " x ")])]))
        ⟨some ⟨some "old"⟩⟩).2.1.templates = some t ∧
      ∃ v : String, t.system_template = some v ∧ v ≠ "" ∧ pyStrip v = v :=
  C10_applied_value_nonempty_stripped (SystemTemplateHook.new "task-10" "dir")
    (.parsed (.map [("templates", .map [("system_template", .str " x ")])]))
    ⟨some ⟨some "old"⟩⟩ (by decide)
